import Mathlib

/-!
Verification of the K-IRC channel relay protocol specification against a
shallow embedding of the implementation.

The embedding translates, module by module:
- `kirc/kafka/messages.py`: the message envelope (`MessageType`, `Message`,
  `ChatMessage`), its pydantic construction semantics, and the msgpack
  binary codec with the `_encode_extended` / `_decode_extended` hooks.
- `kirc/kafka/client.py`: the RPC `request` correlation logic.
- `kirc/cache/client.py`: leader leases over the coordination store
  (`register_channel_leader`, `resign_channel_leader`) and rotation signals.
- `kirc/db/client.py`: the durable message store (`save_message`,
  `get_messages`).
- `kirc/app.py`: the relay orchestrator (`handle_rpc`,
  `handle_incoming_message`, `action_rotate_keys`).

Machine integers do not occur; timestamps are modelled as `Nat` instants,
UUIDs and datetimes by their canonical string renderings (both renderings
are injective in Python, so a value is identified with its rendering).
msgpack byte strings are modelled by the tree of msgpack values they encode
(the msgpack wire format is injective on that tree).
-/

/-! ## kirc/kafka/messages.py — the message envelope -/

/-- MessageType, the `(str, Enum)` of `kirc/kafka/messages.py` lines 35-48.
The source enumeration has exactly these eight members: chat, direct,
broadcast, ping, pong, presence, typing, ack. -/
inductive MessageType where
  | chat
  | direct
  | broadcast
  | ping
  | pong
  | presence
  | typing
  | ack
deriving DecidableEq, Repr

/-- String value of each enumeration member, as declared in the source. -/
def MessageType.value : MessageType → String
  | .chat => "chat"
  | .direct => "direct"
  | .broadcast => "broadcast"
  | .ping => "ping"
  | .pong => "pong"
  | .presence => "presence"
  | .typing => "typing"
  | .ack => "ack"

/-- List of all enumeration members. -/
def MessageType.members : List MessageType :=
  [.chat, .direct, .broadcast, .ping, .pong, .presence, .typing, .ack]

/-- Coercion of a string to an enumeration member, as pydantic performs it
when validating the `type` field: the string must equal the `value` of some
member, otherwise validation fails. -/
def MessageType.ofString? (s : String) : Option MessageType :=
  MessageType.members.find? (fun t => t.value == s)

/-- Python values that occur in message fields and payloads.  UUIDs are
identified with their canonical string, datetimes with their `isoformat`
string, and `(str, Enum)` members (such as `MessageType`) with their string
value; `pdict` keys are strings, as in the payloads the program builds. -/
inductive PyVal where
  | pstr (s : String)
  | pint (n : Int)
  | pbool (b : Bool)
  | pnone
  | pbytes (bs : List Nat)
  | puuid (u : String)
  | pdt (d : String)
  | penum (v : String)
  | plist (xs : List PyVal)
  | pdict (kvs : List (String × PyVal))

/-- Message, the base pydantic envelope of `kirc/kafka/messages.py`
lines 51-61.  Fields in source order: id (UUID), type (MessageType),
sender (str), recipient (str | None), timestamp (datetime),
payload (dict[str, Any]).  The model declares no `correlation_id` field. -/
structure Message where
  id : String
  type : MessageType
  sender : String
  recipient : Option String
  timestamp : String
  payload : List (String × PyVal)

/-- Declared field names of the `Message` pydantic model, in source order. -/
def Message.fields : List String :=
  ["id", "type", "sender", "recipient", "timestamp", "payload"]

/-- ChatMessage of `kirc/kafka/messages.py` lines 75-80: `Message` plus a
required `content` field and an optional `channel` field; `type` defaults
to `MessageType.CHAT`. -/
structure ChatMessage where
  id : String
  type : MessageType
  sender : String
  recipient : Option String
  timestamp : String
  payload : List (String × PyVal)
  content : String
  channel : Option String

/-- Declared field names of the `ChatMessage` pydantic model. -/
def ChatMessage.fields : List String :=
  Message.fields ++ ["content", "channel"]

/-- Python `getattr` on a `Message` instance: only declared model fields
resolve; any other name raises `AttributeError` (pydantic ignores unknown
constructor keyword arguments rather than storing them). `none` models the
raised `AttributeError`. -/
def Message.getattr (m : Message) (a : String) : Option PyVal :=
  if a == "id" then some (.puuid m.id)
  else if a == "type" then some (.penum m.type.value)
  else if a == "sender" then some (.pstr m.sender)
  else if a == "recipient" then some ((m.recipient.map PyVal.pstr).getD .pnone)
  else if a == "timestamp" then some (.pdt m.timestamp)
  else if a == "payload" then some (.pdict m.payload)
  else none

/-- Python runtime errors that the embedded code can raise. -/
inductive PyErr where
  | validationError
  | attributeError (attr : String)
  | nameError (n : String)
  | valueError
  | timeoutError
deriving DecidableEq, Repr

/-- Keyword arguments of a `ChatMessage(...)` construction as the
orchestrator performs them.  `type` is passed as a string (or left to its
default), `correlation_id` is a keyword the model does not declare. -/
structure ChatKwargs where
  type : Option String := none
  sender : Option String := none
  recipient : Option String := none
  content : Option String := none
  channel : Option String := none
  correlation_id : Option String := none
  payload : List (String × PyVal) := []

/-- Pydantic construction of a `ChatMessage`: the `type` string must coerce
to a `MessageType` member (default `chat` when absent), `sender` and
`content` are required, `recipient`/`channel` default to `None`, and the
undeclared `correlation_id` keyword is ignored — it is stored nowhere.
`fresh_id` and `now` stand for the `uuid4()` / `datetime.now` defaults. -/
def ChatMessage.validate (kw : ChatKwargs) (fresh_id : String) (now : String) :
    Except PyErr ChatMessage :=
  let ty? := match kw.type with
    | none => some MessageType.chat
    | some s => MessageType.ofString? s
  match ty?, kw.sender, kw.content with
  | some t, some snd, some cnt =>
      .ok { id := fresh_id, type := t, sender := snd, recipient := kw.recipient,
            timestamp := now, payload := kw.payload, content := cnt,
            channel := kw.channel }
  | _, _, _ => .error .validationError

/-! ## Claim C1 -/

/-- C1: the spec enumerates eleven envelope types and an optional
correlation id; the claim states every such construction succeeds.  On the
code it does not: `MessageType` contains no `fetch_history`, `history_data`
or `channel_key_update` member, so the orchestrator's constructions of those
envelopes fail pydantic validation, and no envelope carries a
`correlation_id`, which is not a declared field of `Message` or
`ChatMessage`.  Only the eight declared types construct successfully. -/
theorem c1_envelope_types :
    (MessageType.ofString? "fetch_history" = none
      ∧ MessageType.ofString? "history_data" = none
      ∧ MessageType.ofString? "channel_key_update" = none)
    ∧ (ChatMessage.validate
          { type := some "fetch_history", sender := some "alice",
            content := some "", correlation_id := some "c-1",
            payload := [("channel", .pstr "X"), ("limit", .pint 20)] }
          "id-0" "t-0" = .error .validationError)
    ∧ ("correlation_id" ∉ Message.fields ∧ "correlation_id" ∉ ChatMessage.fields)
    ∧ (["chat", "direct", "broadcast", "ping", "pong", "presence", "typing",
        "ack"].all (fun s =>
          (ChatMessage.validate
            { type := some s, sender := some "alice", content := some "hi",
              correlation_id := some "c-1" } "id-0" "t-0").toBool) = true)
    ∧ (∀ m : Message, Message.getattr m "correlation_id" = none) := by
  refine ⟨by decide, rfl, by decide, by decide, fun m => ?_⟩
  simp [Message.getattr]

/-! ## kirc/kafka/client.py — RPC request correlation -/

/-- Truthiness of a Python value, as `if not message.correlation_id` tests
it. -/
def PyVal.truthy : PyVal → Bool
  | .pstr s => !s.isEmpty
  | .pint n => n != 0
  | .pbool b => b
  | .pnone => false
  | .pbytes bs => !bs.isEmpty
  | .puuid _ => true
  | .pdt _ => true
  | .penum v => !v.isEmpty
  | .plist xs => !xs.isEmpty
  | .pdict kvs => !kvs.isEmpty

/-- Outcome of awaiting the response future in `request`: either a matching
response arrives within the timeout, or the wait times out.  This stands
for the environment's behaviour at the `asyncio.wait_for` suspension
point. -/
inductive AwaitOutcome where
  | response (m : Message)
  | timeout

/-- KafkaClient.request of `kirc/kafka/client.py` lines 177-189, embedded
over the pending-request table (`_pending_requests`, a map from correlation
id string to a waiter).  The body first evaluates
`if not message.correlation_id:`; on the `Message` model that attribute
does not exist, so the call raises `AttributeError` before a waiter is
registered.  The remaining lines are embedded as written: were the
attribute present and falsy, the assignment's right-hand side `uuid4()`
would raise `NameError` (`uuid4` is never imported in the module); were it
truthy, a single-fulfillment waiter would be registered under the id, the
message sent, and the waiter popped in the `finally` block on response,
timeout (`TimeoutError`) and send error alike. -/
def KafkaClient.request (pending : List (String × Nat)) (waiter : Nat)
    (message : Message) (outcome : AwaitOutcome) :
    Except PyErr Message × List (String × Nat) :=
  match Message.getattr message "correlation_id" with
  | none => (.error (.attributeError "correlation_id"), pending)
  | some v =>
    if !v.truthy then
      (.error (.nameError "uuid4"), pending)
    else
      let cid := match v with
        | .pstr s => s
        | .puuid u => u
        | _ => ""
      let pending' := (cid, waiter) :: pending
      match outcome with
      | .response r => (.ok r, pending'.filter (fun e => e.fst != cid))
      | .timeout => (.error .timeoutError, pending'.filter (fun e => e.fst != cid))

/-! ## Claim C2 -/

/-- C2: the claim states `request` assigns a missing correlation id,
registers a waiter, and returns the response or raises `TimeoutError`,
always removing the waiter.  On the code every `request` call instead
raises `AttributeError` at `if not message.correlation_id:` — the pydantic
`Message` model declares no `correlation_id` field (and the fallback
assignment would hit the unimported name `uuid4`) — so no correlation id is
ever assigned, no waiter is ever registered, and the pending table is left
exactly as it was. -/
theorem c2_request_raises (pending : List (String × Nat)) (waiter : Nat)
    (message : Message) (outcome : AwaitOutcome) :
    KafkaClient.request pending waiter message outcome
      = (.error (.attributeError "correlation_id"), pending) := by
  simp [KafkaClient.request, Message.getattr]

/-! ## kirc/cache/client.py — leader leases on the coordination store -/

/-- Lease on a channel's `channel:{name}:leader` key: the owning username
and the absolute expiry instant (`SET ... EX ttl` at time `now` expires at
`now + ttl`). -/
structure Lease where
  owner : String
  expiry : Nat
deriving DecidableEq, Repr

/-- Coordination store restricted to the leader keys: an association list
from channel name to the lease stored under `channel:{name}:leader`.
Each channel has one key holding one value, as in Redis. -/
def CoordStore : Type := List (String × Lease)

/-- Raw lookup of a channel's leader key, ignoring expiry. -/
def CoordStore.lookup (st : CoordStore) (channel : String) : Option Lease :=
  (List.find? (fun e => e.fst == channel) st).map (·.snd)

/-- GET of the leader key at instant `now`: Redis treats a key whose TTL
has passed as absent. -/
def CoordStore.get_lease (st : CoordStore) (channel : String) (now : Nat) :
    Option Lease :=
  match st.lookup channel with
  | some l => if now < l.expiry then some l else none
  | none => none

/-- SET of the leader key (replacing any previous value for the channel). -/
def CoordStore.set_lease (st : CoordStore) (channel : String) (l : Lease) :
    CoordStore :=
  (channel, l) :: List.filter (fun e => e.fst != channel) st

/-- DEL of the leader key. -/
def CoordStore.delete (st : CoordStore) (channel : String) : CoordStore :=
  List.filter (fun e => e.fst != channel) st

/-- CacheClient.register_channel_leader of `kirc/cache/client.py`
lines 208-224: `SET key self ex=ttl nx=True`; if that fails, GET the key
and, when the stored leader is self, EXPIRE it to the new ttl and return
True; otherwise return False.  Returns the success flag and the store. -/
def register_channel_leader (st : CoordStore) (me channel : String)
    (ttl now : Nat) : Bool × CoordStore :=
  let nx_free := (st.get_lease channel now).isNone
  if nx_free then
    (true, st.set_lease channel ⟨me, now + ttl⟩)
  else
    match st.get_lease channel now with
    | some l =>
        if l.owner == me then (true, st.set_lease channel ⟨me, now + ttl⟩)
        else (false, st)
    | none => (false, st)

/-- CacheClient.resign_channel_leader of `kirc/cache/client.py`
lines 235-244: GET the leader key and DEL it only when the stored leader is
self. -/
def resign_channel_leader (st : CoordStore) (me channel : String) (now : Nat) :
    CoordStore :=
  match st.get_lease channel now with
  | some l => if l.owner == me then st.delete channel else st
  | none => st

/-- One coordination-store operation of the leadership protocol, tagged
with the instant at which it executes. -/
inductive CoordOp where
  | claim (user channel : String) (ttl : Nat)
  | resign (user channel : String)

/-- Effect of one timed operation on the store. -/
def coord_step (st : CoordStore) : CoordOp × Nat → CoordStore
  | (.claim u ch ttl, now) => (register_channel_leader st u ch ttl now).snd
  | (.resign u ch, now) => resign_channel_leader st u ch now

/-- Store reached from an initial store by a finite interleaving of
`claim_leader` / `resign_leader` calls by arbitrary identities. -/
def coord_run (st : CoordStore) (trace : List (CoordOp × Nat)) : CoordStore :=
  trace.foldl coord_step st

/-- Predicate: identity `u` holds an unexpired leader lease for `channel`
at instant `now`. -/
def holds_lease (st : CoordStore) (channel u : String) (now : Nat) : Bool :=
  match st.get_lease channel now with
  | some l => l.owner == u
  | none => false

/-- Helper: after `SET`, the channel's leader key holds exactly the written
lease. -/
theorem lookup_set_self (st : CoordStore) (channel : String) (l : Lease) :
    (st.set_lease channel l).lookup channel = some l := by
  unfold CoordStore.set_lease CoordStore.lookup
  rw [List.find?_cons_of_pos _ (by simp)]
  rfl

/-- Helper: any two identities holding an unexpired lease for the same
channel at the same instant coincide — the leader key stores one value. -/
theorem holds_lease_unique (st : CoordStore) (channel u1 u2 : String)
    (now : Nat) (h1 : holds_lease st channel u1 now = true)
    (h2 : holds_lease st channel u2 now = true) : u1 = u2 := by
  unfold holds_lease at h1 h2
  cases h : st.get_lease channel now with
  | none => rw [h] at h1; exact absurd h1 (by simp)
  | some l =>
      rw [h] at h1 h2
      have e1 : l.owner = u1 := by simpa using h1
      have e2 : l.owner = u2 := by simpa using h2
      exact e1 ▸ e2

/-! ## Claim C8 -/

/-- C8: `register_channel_leader` succeeds exactly when the channel's lease
is absent (including expired) — in which case the caller becomes owner with
expiry `now + ttl` — or already owned by the caller — in which case the TTL
is refreshed to `now + ttl` (idempotent heartbeat).  When another identity
owns an unexpired lease the call returns failure and leaves the store,
hence owner and expiry, unchanged. -/
theorem c8_register_channel_leader (st : CoordStore) (me channel : String)
    (ttl now : Nat) :
    ((register_channel_leader st me channel ttl now).fst = true ↔
        st.get_lease channel now = none
          ∨ ∃ l, st.get_lease channel now = some l ∧ l.owner = me)
    ∧ ((register_channel_leader st me channel ttl now).fst = true →
        (register_channel_leader st me channel ttl now).snd.lookup channel
          = some ⟨me, now + ttl⟩)
    ∧ ((register_channel_leader st me channel ttl now).fst = false →
        (register_channel_leader st me channel ttl now).snd = st
          ∧ ∃ l, st.get_lease channel now = some l ∧ l.owner ≠ me) := by
  unfold register_channel_leader
  cases h : st.get_lease channel now with
  | none => simp [lookup_set_self]
  | some l =>
      by_cases ho : l.owner = me
      · simp [ho, lookup_set_self]
      · simp [ho]

/-- Witness for C8: on the empty store, a claim by alice at instant 0 with
ttl 300 succeeds (lease absent); on the store where alice's lease is live
until instant 300, a claim by bob at instant 10 fails and leaves the store
unchanged. -/
theorem c8_register_channel_leader_witness :
    (register_channel_leader [] "alice" "X" 300 0).fst = true
    ∧ (register_channel_leader [("X", ⟨"alice", 300⟩)] "bob" "X" 300 10).fst
        = false
    ∧ (register_channel_leader [("X", ⟨"alice", 300⟩)] "bob" "X" 300 10).snd
        = [("X", ⟨"alice", 300⟩)] :=
  ⟨(c8_register_channel_leader [] "alice" "X" 300 0).1.mpr (Or.inl rfl),
   rfl,
   ((c8_register_channel_leader [("X", ⟨"alice", 300⟩)] "bob" "X" 300 10).2.2
      rfl).1⟩

/-! ## Claim C3 -/

/-- C3: along every interleaving of `claim_leader` and `resign_leader`
calls by any identities, at most one identity holds an unexpired leader
lease for a channel at any instant (the leader key stores a single value);
a claim returns success only from a state where the lease was absent or
already owned by the claimant; and a resign leaves the store untouched
whenever the stored lease belongs to someone else. -/
theorem c3_single_leader_lease :
    (∀ (trace : List (CoordOp × Nat)) (channel u1 u2 : String) (now : Nat),
        holds_lease (coord_run [] trace) channel u1 now = true →
        holds_lease (coord_run [] trace) channel u2 now = true → u1 = u2)
    ∧ (∀ (st : CoordStore) (u channel : String) (ttl now : Nat),
        (register_channel_leader st u channel ttl now).fst = true →
        st.get_lease channel now = none
          ∨ ∃ l, st.get_lease channel now = some l ∧ l.owner = u)
    ∧ (∀ (st : CoordStore) (u channel : String) (now : Nat) (l : Lease),
        st.lookup channel = some l → l.owner ≠ u →
        resign_channel_leader st u channel now = st) := by
  refine ⟨fun trace channel u1 u2 now h1 h2 =>
      holds_lease_unique _ channel u1 u2 now h1 h2,
    fun st u channel ttl now h =>
      (c8_register_channel_leader st u channel ttl now).1.mp h,
    fun st u channel now l hl ho => ?_⟩
  unfold resign_channel_leader CoordStore.get_lease
  rw [hl]
  by_cases he : now < l.expiry
  · simp [he, ho]
  · simp [he]

/-- Witness for C3: after the interleaving in which alice claims channel X
at instant 0 (ttl 300) and bob claims it at instant 10, alice is the sole
holder at instant 10; a lease owned by bob survives alice's resign call
untouched. -/
theorem c3_single_leader_lease_witness :
    (holds_lease
        (coord_run [] [(CoordOp.claim "alice" "X" 300, 0),
                       (CoordOp.claim "bob" "X" 300, 10)]) "X" "alice" 10
        = true
      ∧ "alice" = "alice")
    ∧ ((register_channel_leader [] "alice" "X" 300 0).fst = true
      ∧ (CoordStore.get_lease [] "X" 0 = none
          ∨ ∃ l, CoordStore.get_lease [] "X" 0 = some l ∧ l.owner = "alice"))
    ∧ (CoordStore.lookup [("X", ⟨"bob", 300⟩)] "X" = some ⟨"bob", 300⟩
      ∧ resign_channel_leader [("X", ⟨"bob", 300⟩)] "alice" "X" 10
          = [("X", ⟨"bob", 300⟩)]) :=
  ⟨⟨rfl, c3_single_leader_lease.1
      [(CoordOp.claim "alice" "X" 300, 0), (CoordOp.claim "bob" "X" 300, 10)]
      "X" "alice" "alice" 10 rfl rfl⟩,
   ⟨rfl, c3_single_leader_lease.2.1 [] "alice" "X" 300 0 rfl⟩,
   ⟨rfl, c3_single_leader_lease.2.2 [("X", ⟨"bob", 300⟩)] "alice" "X" 10
      ⟨"bob", 300⟩ rfl (by simp)⟩⟩

/-! ## kirc/db/models.py and kirc/db/client.py — the durable store -/

/-- Message of `kirc/db/models.py` lines 91-103, the persisted row.
`content` bytes are modelled by the string they encode; datetimes by `Nat`
instants. -/
structure DbMessage where
  id : Int
  message_type : String
  sender : String
  recipient : Option String
  channel : Option String
  content : String
  timestamp : Nat
  is_outbound : Bool
  is_read : Bool
  created_at : Nat
deriving DecidableEq, Repr

/-- Contact of `kirc/db/models.py`, restricted to the two fields the relay
paths consult (`get_contact(...).public_key`); the remaining columns
(display name, endpoint, block flag, timestamps) are never read by the
embedded functions. -/
structure Contact where
  username : String
  public_key : Option String
deriving DecidableEq, Repr

/-- Messages table.  The list models the `messages` relation; `id` is its
key.  Modelled from the spec: `schema.sql` is not under `src/`, so the
uniqueness of the `id` column is taken from the spec's durable-store
surface and from the `INSERT ... ON CONFLICT (id) DO NOTHING` statement in
`kirc/db/client.py`, which presupposes a unique index on `id`. -/
abbrev MsgTable : Type := List DbMessage

/-- DatabaseClient.save_message of `kirc/db/client.py` lines 341-363:
`INSERT INTO messages ... ON CONFLICT (id) DO NOTHING` — when a row with
the same id exists the statement is a no-op and raises no error, otherwise
the row is appended. -/
def save_message (tbl : MsgTable) (m : DbMessage) : MsgTable :=
  if tbl.any (fun r => r.id == m.id) then tbl else tbl ++ [m]

/-- Row of the messages table with the given id, if any. -/
def db_find_message (tbl : MsgTable) (i : Int) : Option DbMessage :=
  tbl.find? (fun r => r.id == i)

/-- Ordering used by `ORDER BY timestamp DESC`. -/
def ts_ge (a b : DbMessage) : Prop := b.timestamp ≤ a.timestamp

instance : DecidableRel ts_ge := fun a b => Nat.decLe b.timestamp a.timestamp

instance : IsTotal DbMessage ts_ge :=
  ⟨fun a b => (Nat.le_total a.timestamp b.timestamp).symm⟩

instance : IsTrans DbMessage ts_ge :=
  ⟨fun _ _ _ h1 h2 => Nat.le_trans h2 h1⟩

/-- DatabaseClient.get_messages of `kirc/db/client.py` lines 365-422,
restricted to the channel filter used by the history RPC:
`SELECT * FROM messages WHERE channel = $1 ORDER BY timestamp DESC
LIMIT $2`, then `reversed(rows)` to return chronological order. -/
def get_messages (tbl : MsgTable) (channel : String) (limit : Nat) :
    List DbMessage :=
  (((tbl.filter (fun m => m.channel == some channel)).insertionSort
      ts_ge).take limit).reverse

/-- Chronological order: each message's timestamp is at most the next
one's. -/
def chronological (l : List DbMessage) : Prop :=
  l.Sorted (fun a b => a.timestamp ≤ b.timestamp)

/-- Helper: `get_messages` pages are chronologically ordered and bounded by
the requested limit. -/
theorem get_messages_chronological (tbl : MsgTable) (channel : String)
    (limit : Nat) :
    chronological (get_messages tbl channel limit)
    ∧ (get_messages tbl channel limit).length ≤ limit := by
  constructor
  · unfold get_messages chronological List.Sorted
    rw [List.pairwise_reverse]
    exact ((List.sorted_insertionSort ts_ge _).sublist
      (List.take_sublist _ _)).imp (fun h => h)
  · unfold get_messages
    rw [List.length_reverse, List.length_take]
    exact Nat.min_le_left _ _

/-! ## Claim C10 -/

/-- C10: saving a message is idempotent on its id: once a row with a given
id is stored, a later `save_message` carrying the same id — whatever its
other field values — is an `ON CONFLICT (id) DO NOTHING` no-op: the table,
and in particular the stored row, is unchanged and no error is raised, so
duplicate delivery never duplicates or rewrites history. -/
theorem c10_save_message_idempotent (tbl : MsgTable) (m m2 : DbMessage)
    (hid : m2.id = m.id) :
    save_message (save_message tbl m) m2 = save_message tbl m
    ∧ db_find_message (save_message (save_message tbl m) m2) m.id
        = db_find_message (save_message tbl m) m.id := by
  have hmem : (save_message tbl m).any (fun r => r.id == m2.id) = true := by
    unfold save_message
    by_cases h : tbl.any (fun r => r.id == m.id) = true
    · simp [h, hid]
    · simp [h, hid, List.any_append]
  have : save_message (save_message tbl m) m2 = save_message tbl m := by
    unfold save_message
    rw [if_pos]
    exact hmem
  exact ⟨this, by rw [this]⟩

/-- Witness for C10: storing the row with id 7 and then saving a different
row with the same id 7 leaves the table exactly as after the first save,
and the stored row keeps its original content. -/
theorem c10_save_message_idempotent_witness :
    ((7 : Int) = (7 : Int))
    ∧ save_message
        (save_message []
          ⟨7, "chat", "alice", none, some "X", "hello", 100, false, false, 100⟩)
        ⟨7, "chat", "mallory", none, some "X", "rewrite", 200, true, true, 200⟩
      = save_message []
          ⟨7, "chat", "alice", none, some "X", "hello", 100, false, false, 100⟩
    ∧ db_find_message
        (save_message
          (save_message []
            ⟨7, "chat", "alice", none, some "X", "hello", 100, false, false,
              100⟩)
          ⟨7, "chat", "mallory", none, some "X", "rewrite", 200, true, true,
            200⟩) 7
      = some ⟨7, "chat", "alice", none, some "X", "hello", 100, false, false,
          100⟩ := by
  refine ⟨rfl, ?_, ?_⟩
  · exact (c10_save_message_idempotent []
      ⟨7, "chat", "alice", none, some "X", "hello", 100, false, false, 100⟩
      ⟨7, "chat", "mallory", none, some "X", "rewrite", 200, true, true, 200⟩
      rfl).1
  · rw [(c10_save_message_idempotent []
      ⟨7, "chat", "alice", none, some "X", "hello", 100, false, false, 100⟩
      ⟨7, "chat", "mallory", none, some "X", "rewrite", 200, true, true, 200⟩
      rfl).1]
    rfl

/-! ## kirc/crypto.py and kirc/app.py — history RPC (handle_rpc) -/

/-- Contact lookup, `DatabaseClient.get_contact` restricted to the fields
consulted. -/
def get_contact (contacts : List Contact) (username : String) :
    Option Contact :=
  contacts.find? (fun c => c.username == username)

/-- Stored public key of a username: `get_contact(u)` followed by the
`.public_key` access, `none` when the contact is missing or has no key. -/
def contact_public_key (contacts : List Contact) (username : String) :
    Option String :=
  (get_contact contacts username).bind (·.public_key)

/-- Maximum plaintext length of `encrypt_message` in `kirc/crypto.py`:
RSA-OAEP with a 2048-bit key and SHA-256 accepts at most
256 - 2*32 - 2 = 190 bytes in a single encryption. -/
def rsa_oaep_max_len : Nat := 190

/-- Model of the `msgpack.packb(messages_json)` byte length of a history
page: string fields contribute their lengths and each row a fixed overhead
for its keys, numeric fields and msgpack headers. -/
def db_message_packed_len (m : DbMessage) : Nat :=
  m.message_type.length + m.sender.length
    + (m.recipient.map String.length).getD 0
    + (m.channel.map String.length).getD 0
    + m.content.length + 96

/-- Packed length of the whole page. -/
def history_packed_len (msgs : List DbMessage) : Nat :=
  1 + (msgs.map db_message_packed_len).sum

/-- Asymmetrically sealed blob: page `data` encrypted under public key
`pk`. -/
structure Sealed where
  pk : String
  data : List DbMessage
deriving DecidableEq, Repr

/-- crypto.encrypt_message applied to a packed history page: a single
RSA-OAEP operation, which raises `ValueError` when the plaintext exceeds
the 190-byte bound. -/
def encrypt_history (pk : String) (msgs : List DbMessage) :
    Except PyErr Sealed :=
  if history_packed_len msgs ≤ rsa_oaep_max_len then .ok ⟨pk, msgs⟩
  else .error .valueError

/-- Payload dictionary handle_rpc builds for the `history_data` response
(`kirc/app.py` lines 342-360). -/
structure HistoryPayload where
  channel : String
  messages : Option (List DbMessage) := none
  encrypted_messages : Option Sealed := none
  is_encrypted : Bool := false
deriving DecidableEq, Repr

/-- Lines 336-360 of `kirc/app.py` handle_rpc: read the page with
`get_messages`, and if the requester has a stored public key try to seal
the packed page (falling back to plaintext with `is_encrypted=False` when
encryption raises); without a stored key return the page in the clear with
`is_encrypted=False`. -/
def build_history_payload (tbl : MsgTable) (contacts : List Contact)
    (requester channel : String) (limit : Nat) : HistoryPayload :=
  let msgs := get_messages tbl channel limit
  match (get_contact contacts requester).bind (·.public_key) with
  | some pk =>
      match encrypt_history pk msgs with
      | .ok blob =>
          { channel := channel, encrypted_messages := some blob,
            is_encrypted := true }
      | .error _ =>
          { channel := channel, messages := some msgs, is_encrypted := false }
  | none => { channel := channel, messages := some msgs, is_encrypted := false }

/-- Lines 334-372 of `kirc/app.py` handle_rpc, `fetch_history` branch: the
payload is built, then the response construction
`ChatMessage(type="history_data", sender=..., recipient=message.sender,
correlation_id=message.correlation_id, payload=payload)` is evaluated.
Evaluating the `correlation_id` keyword reads an attribute the `Message`
model does not declare, raising `AttributeError` (and even absent that, the
construction would fail validation: `history_data` is no `MessageType`
member and the required `content` field is not passed).  The pair returned
is the payload built and the outcome of the response construction. -/
def handle_rpc_fetch_history (tbl : MsgTable) (contacts : List Contact)
    (me : String) (incoming : Message) (channel : String) (limit : Nat) :
    HistoryPayload × Except PyErr ChatMessage :=
  let payload := build_history_payload tbl contacts incoming.sender channel
    limit
  let response : Except PyErr ChatMessage :=
    match Message.getattr incoming "correlation_id" with
    | none => .error (.attributeError "correlation_id")
    | some _ =>
        ChatMessage.validate
          { type := some "history_data", sender := some me,
            recipient := some incoming.sender } "" ""
  (payload, response)

/-! ## Claim C4 -/

/-- C4: the claim describes the fetch_history RPC returning the page sealed
(`is_encrypted=true`) or in the clear (`is_encrypted=false`), always
chronologically ordered and bounded by the limit.  On the code the RPC can
never complete: no `MessageType` member equals "fetch_history", so no
parsed envelope can even select the branch, and the response construction
always raises before anything is sent.  The payload built up to that point
does match the claim in the no-public-key case: `is_encrypted=false` with
the plaintext page, which is chronological and bounded by the limit. -/
theorem c4_fetch_history :
    (∀ t : MessageType, (t.value == "fetch_history") = false)
    ∧ (∀ (tbl : MsgTable) (contacts : List Contact) (me : String)
        (incoming : Message) (channel : String) (limit : Nat),
        contact_public_key contacts incoming.sender = none →
        (handle_rpc_fetch_history tbl contacts me incoming channel
            limit).fst
          = { channel := channel,
              messages := some (get_messages tbl channel limit),
              is_encrypted := false }
        ∧ chronological (get_messages tbl channel limit)
        ∧ (get_messages tbl channel limit).length ≤ limit)
    ∧ (∀ (tbl : MsgTable) (contacts : List Contact) (me : String)
        (incoming : Message) (channel : String) (limit : Nat),
        (handle_rpc_fetch_history tbl contacts me incoming channel
            limit).snd
          = .error (.attributeError "correlation_id")) := by
  refine ⟨fun t => by cases t <;> rfl, fun tbl contacts me incoming channel
    limit h => ?_, fun tbl contacts me incoming channel limit => ?_⟩
  · refine ⟨?_, (get_messages_chronological tbl channel limit).1,
      (get_messages_chronological tbl channel limit).2⟩
    unfold handle_rpc_fetch_history build_history_payload
    unfold contact_public_key at h
    simp [h]
  · simp [handle_rpc_fetch_history, Message.getattr]

/-- Witness for C4: a leader holding three stored messages for channel X
and no contact row for requester bob builds the plaintext payload with
`is_encrypted=false` and the chronological page, while the response
construction raises. -/
theorem c4_fetch_history_witness :
    contact_public_key [] "bob" = none
    ∧ (handle_rpc_fetch_history
        [⟨1, "chat", "alice", none, some "X", "m1", 100, false, false, 100⟩,
         ⟨2, "chat", "carol", none, some "X", "m2", 50, false, false, 50⟩,
         ⟨3, "chat", "alice", none, some "X", "m3", 75, false, false, 75⟩]
        [] "leader"
        ⟨"u-1", .ping, "bob", none, "t-1", []⟩ "X" 20).fst
      = { channel := "X",
          messages := some (get_messages
            [⟨1, "chat", "alice", none, some "X", "m1", 100, false, false,
               100⟩,
             ⟨2, "chat", "carol", none, some "X", "m2", 50, false, false, 50⟩,
             ⟨3, "chat", "alice", none, some "X", "m3", 75, false, false,
               75⟩] "X" 20),
          is_encrypted := false } :=
  ⟨rfl,
   (c4_fetch_history.2.1
      [⟨1, "chat", "alice", none, some "X", "m1", 100, false, false, 100⟩,
       ⟨2, "chat", "carol", none, some "X", "m2", 50, false, false, 50⟩,
       ⟨3, "chat", "alice", none, some "X", "m3", 75, false, false, 75⟩]
      [] "leader" ⟨"u-1", .ping, "bob", none, "t-1", []⟩ "X" 20 rfl).1⟩

/-! ## kirc/app.py — key rotation (action_rotate_keys) -/

/-- Rotation signal published by `CacheClient.publish_key_rotation`
(`kirc/cache/client.py` lines 271-284): the msgpack dictionary carries the
channel, the key id and a `start_message_id` (always `None` here); the key
itself has no field. -/
structure RotationSignal where
  channel : String
  key_id : String
  start_message_id : Option String
deriving DecidableEq, Repr

/-- Base64 of an RSA-OAEP sealing of a symmetric key under a public key
(`encrypt_message` on a 44-byte Fernet key always fits the 190-byte
bound). -/
def seal_key_b64 (pk : String) (key : Nat) : String :=
  "b64rsa:" ++ pk ++ ":" ++ toString key

/-- Inputs `action_rotate_keys` consults: own identity, the channel's
current leader, the membership set, the contact table and whether the own
public key is loaded. -/
structure RotateCtx where
  me : String
  leader : Option String
  members : List String
  contacts : List Contact
  self_public_key : Option String
deriving Repr

/-- Observable outcome of `action_rotate_keys`. -/
structure RotateResult where
  denied : Bool
  new_key : Option (String × Nat)
  persisted_self : Bool
  sent : List String
  count : Nat
  published : Option RotationSignal
deriving DecidableEq, Repr

/-- Per-member body of the distribution loop (`kirc/app.py` lines 583-612):
skip self; skip members without a stored public key; otherwise seal the key
and construct `ChatMessage(type="channel_key_update", sender=..., `
`recipient=..., payload={channel, key, key_id})` inside the `try` block —
the construction raises `ValidationError` (no such `MessageType` member,
required `content` missing), the `except` swallows it, and neither the send
nor `count += 1` happens. -/
def rotate_member_step (ctx : RotateCtx) (channel key_id : String)
    (new_key : Nat) (acc : List String × Nat) (member : String) :
    List String × Nat :=
  if member == ctx.me then acc
  else
    match contact_public_key ctx.contacts member with
    | none => acc
    | some pk =>
        match ChatMessage.validate
            { type := some "channel_key_update", sender := some ctx.me,
              recipient := some member,
              payload := [("channel", .pstr channel),
                          ("key", .pstr (seal_key_b64 pk new_key)),
                          ("key_id", .pstr key_id)] } "" "" with
        | .ok _ => (acc.fst ++ [member], acc.snd + 1)
        | .error _ => acc

/-- KircApp.action_rotate_keys of `kirc/app.py` lines 548-616: a non-leader
is denied before any key is generated or message sent; a leader generates
`(key_id, new_key)`, stores it, persists a self-sealed copy when the own
public key is loaded, runs the distribution loop over the members, then
publishes the rotation signal and reports the count. -/
def action_rotate_keys (ctx : RotateCtx) (channel : String) (new_key : Nat)
    (key_id : String) : RotateResult :=
  if ctx.leader != some ctx.me then
    { denied := true, new_key := none, persisted_self := false, sent := [],
      count := 0, published := none }
  else
    let (sent, count) := ctx.members.foldl
      (rotate_member_step ctx channel key_id new_key) ([], 0)
    { denied := false, new_key := some (key_id, new_key),
      persisted_self := ctx.self_public_key.isSome, sent := sent,
      count := count, published := some ⟨channel, key_id, none⟩ }

/-- Helper: the per-member step never adds a member — the
`channel_key_update` construction always fails validation and the `except`
clause swallows it. -/
theorem rotate_member_step_fixed (ctx : RotateCtx) (channel key_id : String)
    (new_key : Nat) (acc : List String × Nat) (member : String) :
    rotate_member_step ctx channel key_id new_key acc member = acc := by
  unfold rotate_member_step
  by_cases hm : (member == ctx.me) = true
  · simp [hm]
  · cases hpk : contact_public_key ctx.contacts member with
    | none => simp [hm, hpk]
    | some pk =>
        simp only [hm, hpk, Bool.false_eq_true, if_false]
        rfl

/-- Helper: folding a fixed-point step leaves the accumulator. -/
theorem foldl_rotate_member_step (ctx : RotateCtx) (channel key_id : String)
    (new_key : Nat) (acc : List String × Nat) (members : List String) :
    members.foldl (rotate_member_step ctx channel key_id new_key) acc
      = acc := by
  induction members generalizing acc with
  | nil => rfl
  | cons m ms ih =>
      rw [List.foldl_cons, rotate_member_step_fixed]
      exact ih acc

/-! ## Claim C5 -/

/-- C5: the claim's authorization part holds — a caller that does not hold
the channel's leader lease is denied with no key generated and nothing
sent, and a leader generates and stores a fresh key and publishes a
rotation signal carrying exactly the channel and key id (never the key) and
reports a send count.  The distribution part fails on the code: the
`channel_key_update` construction raises inside the per-member `try`, so no
member is ever sent the sealed key and the reported count is always 0, even
when members with stored public keys exist. -/
theorem c5_rotate_keys :
    (∀ (ctx : RotateCtx) (channel : String) (new_key : Nat)
        (key_id : String), ctx.leader ≠ some ctx.me →
        action_rotate_keys ctx channel new_key key_id
          = { denied := true, new_key := none, persisted_self := false,
              sent := [], count := 0, published := none })
    ∧ (∀ (ctx : RotateCtx) (channel : String) (new_key : Nat)
        (key_id : String), ctx.leader = some ctx.me →
        action_rotate_keys ctx channel new_key key_id
          = { denied := false, new_key := some (key_id, new_key),
              persisted_self := ctx.self_public_key.isSome, sent := [],
              count := 0, published := some ⟨channel, key_id, none⟩ }) := by
  constructor
  · intro ctx channel new_key key_id h
    unfold action_rotate_keys
    simp [h]
  · intro ctx channel new_key key_id h
    unfold action_rotate_keys
    simp [h, foldl_rotate_member_step]

/-- Witness for C5: with bob a member whose public key is on file, the
leader's rotation still sends to nobody and reports count 0 (though the
signal for channel X with the fresh key id is published); a non-leader's
attempt is denied outright. -/
theorem c5_rotate_keys_witness :
    (some "alice" : Option String) = some "alice"
    ∧ action_rotate_keys
        ⟨"alice", some "alice", ["alice", "bob"],
          [⟨"bob", some "PKbob"⟩], some "PKalice"⟩ "X" 42 "kid-1"
      = { denied := false, new_key := some ("kid-1", 42),
          persisted_self := true, sent := [], count := 0,
          published := some ⟨"X", "kid-1", none⟩ }
    ∧ (some "alice" : Option String) ≠ some "carol"
    ∧ action_rotate_keys
        ⟨"carol", some "alice", ["alice", "bob"],
          [⟨"bob", some "PKbob"⟩], some "PKcarol"⟩ "X" 42 "kid-1"
      = { denied := true, new_key := none, persisted_self := false,
          sent := [], count := 0, published := none } := by
  refine ⟨rfl, ?_, by simp, ?_⟩
  · exact c5_rotate_keys.2
      ⟨"alice", some "alice", ["alice", "bob"], [⟨"bob", some "PKbob"⟩],
        some "PKalice"⟩ "X" 42 "kid-1" rfl
  · exact c5_rotate_keys.1
      ⟨"carol", some "alice", ["alice", "bob"], [⟨"bob", some "PKbob"⟩],
        some "PKcarol"⟩ "X" 42 "kid-1" (by simp)

/-! ## kirc/app.py — receive path (handle_incoming_message) -/

/-- Wire content of an inbound chat message, viewed through what
`base64.b64decode` + `decrypt_symmetric` can do with it: `text s` is a
plain string on which the base64/Fernet step raises, `sealed k m` is the
base64 Fernet ciphertext of `m` under key `k` (decryption under any other
key raises `InvalidToken`). -/
inductive Blob where
  | text (s : String)
  | sealed (key : Nat) (m : String)
deriving DecidableEq, Repr

/-- String rendering of the wire content — for `sealed`, the base64
ciphertext string itself. -/
def Blob.render : Blob → String
  | .text s => s
  | .sealed k m => "b64f:" ++ toString k ++ ":" ++ m

/-- In-memory channel key map of the orchestrator,
`self.channel_keys : channel -> {key_id -> key}`. -/
abbrev ChannelKeys : Type := List (String × List (String × Nat))

/-- Entry of a channel in the key map (`channel in self.channel_keys`). -/
def channel_keys_lookup (cks : ChannelKeys) (channel : String) :
    Option (List (String × Nat)) :=
  (cks.find? (fun e => e.fst == channel)).map (·.snd)

/-- Key with a given id inside a channel's key dictionary. -/
def key_lookup (km : List (String × Nat)) (kid : String) : Option Nat :=
  (km.find? (fun e => e.fst == kid)).map (·.snd)

/-- Key-selection step of `kirc/app.py` lines 463-468: use the key carried
by `key_id` when it is known inside the channel entry, otherwise fall back
to the first locally known key of that entry (`next(iter(...))` over the
insertion-ordered dictionary), `none` when the entry is empty. -/
def select_decrypt_key (km : List (String × Nat)) (key_id : Option String) :
    Option Nat :=
  match key_id with
  | some kid =>
      match key_lookup km kid with
      | some kk => some kk
      | none => km.head?.map (·.snd)
  | none => km.head?.map (·.snd)

/-- Lines 452-476 of `kirc/app.py` handle_incoming_message: the content a
received chat message resolves to.  Only when the channel has an entry in
`self.channel_keys` is decryption attempted (inside a `try`): base64-decode
the content, select a key, decrypt; a missing key yields the
"[ENCRYPTED - MISSING KEY]" placeholder, and any raised decode/decrypt
failure is caught and yields "[ENCRYPTED_DATA_STREAM]".  Without an entry
the content is passed through unchanged.  The function is total: no
exception escapes it. -/
def resolve_incoming_content (cks : ChannelKeys) (channel : Option String)
    (content : Blob) (key_id : Option String) : String :=
  match channel.bind (channel_keys_lookup cks) with
  | none => content.render
  | some km =>
      match content with
      | .text _ => "[ENCRYPTED_DATA_STREAM]"
      | .sealed k m =>
          match select_decrypt_key km key_id with
          | some kk => if kk == k then m else "[ENCRYPTED_DATA_STREAM]"
          | none => "[ENCRYPTED - MISSING KEY]"

/-- State handle_incoming_message consults: own identity, the open channel,
the key map, the channel-leader table of the coordination store, and
whether the database client is connected. -/
structure RecvCtx where
  me : String
  current_channel : String
  channel_keys : ChannelKeys
  leaders : List (String × String)
  has_db : Bool
deriving Repr

/-- Inbound chat message as the handler reads it from the payload. -/
structure InChat where
  sender : String
  channel : Option String
  content : Blob
  key_id : Option String
deriving DecidableEq, Repr

/-- Leader of the message's channel as the handler queries it
(`get_channel_leader(channel)`). -/
def leader_for (ctx : RecvCtx) (channel : Option String) : Option String :=
  channel.bind (fun ch =>
    (ctx.leaders.find? (fun e => e.fst == ch)).map (·.snd))

/-- Observable outcome of the handler: the exception it raises into the
consume loop (if any), the content persisted, the content rendered to the
open channel, and the message re-published to the own outbox. -/
structure RecvOutcome where
  err : Option PyErr
  saved : Option String
  shown : Option String
  relayed : Option InChat
deriving DecidableEq, Repr

/-- Lines 450-522 of `kirc/app.py` handle_incoming_message for a chat
message: resolve the content, then — when the database client is connected
— mutate the payload and call `save_message(message)`, which raises
`AttributeError` (the Kafka `Message` has no `message_type` attribute the
database row needs), aborting the handler before the UI update and the
relay check; the consume loop catches that exception.  Without a database
client, render the content when the message belongs to the open channel,
and re-publish the original message to the own outbox exactly when the
local identity is the channel's current leader and the message did not
originate from self. -/
def handle_incoming_chat (ctx : RecvCtx) (msg : InChat) : RecvOutcome :=
  let content := resolve_incoming_content ctx.channel_keys msg.channel
    msg.content msg.key_id
  if ctx.has_db then
    { err := some (.attributeError "message_type"), saved := none,
      shown := none, relayed := none }
  else
    { err := none, saved := none,
      shown := if msg.channel == some ctx.current_channel then some content
        else none,
      relayed := if leader_for ctx msg.channel == some ctx.me
          && msg.sender != ctx.me then some msg
        else none }

/-! ## Claim C6 -/

/-- C6: the receive path re-publishes an inbound channel message to the own
outbox only when the local identity is the channel's current leader and the
message's sender differs from it; a message whose sender equals the local
identity is never relayed, and whatever is relayed is the inbound message
itself. -/
theorem c6_no_self_relay (ctx : RecvCtx) (msg : InChat) :
    ((handle_incoming_chat ctx msg).relayed.isSome = true →
      msg.sender ≠ ctx.me ∧ leader_for ctx msg.channel = some ctx.me)
    ∧ (msg.sender = ctx.me → (handle_incoming_chat ctx msg).relayed = none)
    ∧ ((handle_incoming_chat ctx msg).relayed = some msg
        ∨ (handle_incoming_chat ctx msg).relayed = none) := by
  unfold handle_incoming_chat
  by_cases hdb : ctx.has_db
  · simp [hdb]
  · by_cases hl : leader_for ctx msg.channel == some ctx.me
    · by_cases hs : msg.sender == ctx.me
      · simp_all
      · simp_all
    · simp_all

/-- Witness for C6: with alice the stored leader of channel X and no
database client, a chat from bob is relayed verbatim (and bob is not
alice), while the echo of alice's own message is not relayed. -/
theorem c6_no_self_relay_witness :
    ((handle_incoming_chat
        ⟨"alice", "X", [], [("X", "alice")], false⟩
        ⟨"bob", some "X", .text "hi", none⟩).relayed.isSome = true
      ∧ "bob" ≠ "alice"
      ∧ leader_for ⟨"alice", "X", [], [("X", "alice")], false⟩ (some "X")
          = some "alice")
    ∧ ("alice" = "alice"
      ∧ (handle_incoming_chat
          ⟨"alice", "X", [], [("X", "alice")], false⟩
          ⟨"alice", some "X", .text "hi", none⟩).relayed = none) :=
  ⟨⟨rfl,
    ((c6_no_self_relay ⟨"alice", "X", [], [("X", "alice")], false⟩
        ⟨"bob", some "X", .text "hi", none⟩).1 rfl).1,
    ((c6_no_self_relay ⟨"alice", "X", [], [("X", "alice")], false⟩
        ⟨"bob", some "X", .text "hi", none⟩).1 rfl).2⟩,
   ⟨rfl,
    (c6_no_self_relay ⟨"alice", "X", [], [("X", "alice")], false⟩
        ⟨"alice", some "X", .text "hi", none⟩).2.1 rfl⟩⟩

/-! ## Claim C7 -/

/-- C7, counterexample: the claim says that when the node holds no key at
all for the channel, the rendered/persisted content is a defined "locked"
placeholder.  With an empty key map (no entry for channel X) and an
inbound message carrying ciphertext and a `key_id`, the receive path skips
the decryption block entirely and passes the raw base64 ciphertext string
through unchanged — it is neither placeholder. -/
theorem c7_locked_placeholder_counterexample :
    resolve_incoming_content [] (some "X") (.sealed 5 "hi") (some "k1")
      = Blob.render (.sealed 5 "hi")
    ∧ (Blob.render (.sealed 5 "hi") == "[ENCRYPTED - MISSING KEY]") = false
    ∧ (Blob.render (.sealed 5 "hi") == "[ENCRYPTED_DATA_STREAM]") = false := by
  exact ⟨rfl, by decide, by decide⟩

/-- C7, amended: no decryption failure ever escapes as an exception — the
content resolution is total — and when the channel HAS an entry in the
local key map the result is the decrypted plaintext or one of the two
defined placeholders ("[ENCRYPTED - MISSING KEY]" when no key is known
inside the entry, "[ENCRYPTED_DATA_STREAM]" when decoding or decryption
fails); but when the channel has no entry at all in the key map — in
particular when the node holds no keys whatsoever — the content is passed
through unchanged, placeholder-free. -/
theorem c7_locked_placeholder (cks : ChannelKeys) (channel : String)
    (content : Blob) (key_id : Option String) (km : List (String × Nat))
    (h : channel_keys_lookup cks channel = some km) :
    (resolve_incoming_content cks (some channel) content key_id
        = "[ENCRYPTED - MISSING KEY]"
      ∨ resolve_incoming_content cks (some channel) content key_id
          = "[ENCRYPTED_DATA_STREAM]"
      ∨ ∃ k m, content = .sealed k m
          ∧ resolve_incoming_content cks (some channel) content key_id = m)
    ∧ (∀ (cks' : ChannelKeys) (channel' : Option String) (content' : Blob)
        (key_id' : Option String),
        channel'.bind (channel_keys_lookup cks') = none →
        resolve_incoming_content cks' channel' content' key_id'
          = content'.render) := by
  constructor
  · unfold resolve_incoming_content
    rw [Option.some_bind', h]
    match content with
    | .text s => exact Or.inr (Or.inl rfl)
    | .sealed k m =>
        cases hk : select_decrypt_key km key_id with
        | none => simp [hk]
        | some kk =>
            by_cases he : (kk == k) = true
            · exact Or.inr (Or.inr ⟨k, m, rfl, by simp [hk, he]⟩)
            · refine Or.inr (Or.inl ?_)
              simp [hk, he]
  · intro cks' channel' content' key_id' h'
    unfold resolve_incoming_content
    rw [h']

/-- Witness for C7 (amended): with an entry for channel X holding key k1=5,
the matching ciphertext decrypts to its plaintext, and for a channel
without an entry the content passes through. -/
theorem c7_locked_placeholder_witness :
    (channel_keys_lookup [("X", [("k1", 5)])] "X" = some [("k1", 5)]
      ∧ (resolve_incoming_content [("X", [("k1", 5)])] (some "X")
            (.sealed 5 "hello") (some "k1") = "[ENCRYPTED - MISSING KEY]"
        ∨ resolve_incoming_content [("X", [("k1", 5)])] (some "X")
            (.sealed 5 "hello") (some "k1") = "[ENCRYPTED_DATA_STREAM]"
        ∨ ∃ k m, Blob.sealed 5 "hello" = .sealed k m
            ∧ resolve_incoming_content [("X", [("k1", 5)])] (some "X")
                (.sealed 5 "hello") (some "k1") = m))
    ∧ ((some "Y").bind (channel_keys_lookup [("X", [("k1", 5)])]) = none
      ∧ resolve_incoming_content [("X", [("k1", 5)])] (some "Y")
          (.sealed 5 "hello") (some "k1")
        = Blob.render (.sealed 5 "hello")) :=
  ⟨⟨rfl,
    (c7_locked_placeholder [("X", [("k1", 5)])] "X" (.sealed 5 "hello")
        (some "k1") [("k1", 5)] rfl).1⟩,
   ⟨rfl,
    (c7_locked_placeholder [("X", [("k1", 5)])] "X" (.sealed 5 "hello")
        (some "k1") [("k1", 5)] rfl).2 [("X", [("k1", 5)])] (some "Y")
        (.sealed 5 "hello") (some "k1") rfl⟩⟩

/-! ## kirc/kafka/messages.py — the msgpack codec (to_bytes / from_bytes) -/

/-- msgpack value tree.  `Message.to_bytes` produces the msgpack byte
serialization of such a tree; since that serialization is injective, bytes
are modelled by the tree itself. -/
inductive MPVal where
  | mstr (s : String)
  | mint (n : Int)
  | mbool (b : Bool)
  | mnil
  | mbin (bs : List Nat)
  | mlist (xs : List MPVal)
  | mmap (kvs : List (MPVal × MPVal))

/-- Discriminator: is the msgpack value a map?  A wrapper-tagged value
(`{"__uuid__": ...}` etc.) is a map; a natively packed value is not. -/
def MPVal.is_map : MPVal → Bool
  | .mmap _ => true
  | _ => false

mutual

/-- Packing of a Python value by `msgpack.packb(data,
default=_encode_extended, strict_types=False)`.  With `strict_types=False`
the packer tests `isinstance`, so a `(str, Enum)` member — being an
instance of `str` — is packed natively as its string value and the
`default` hook is never consulted for it; `UUID` and `datetime` are not
packable, so `_encode_extended` wraps them as the one-entry maps
with the `__uuid__` / `__datetime__` marker key and the `str(obj)` /
`obj.isoformat()` rendering as value. -/
def packPy : PyVal → MPVal
  | .pstr s => .mstr s
  | .pint n => .mint n
  | .pbool b => .mbool b
  | .pnone => .mnil
  | .pbytes bs => .mbin bs
  | .puuid u => .mmap [(.mstr "__uuid__", .mstr u)]
  | .pdt d => .mmap [(.mstr "__datetime__", .mstr d)]
  | .penum v => .mstr v
  | .plist xs => .mlist (packPyList xs)
  | .pdict kvs => .mmap (packPyDict kvs)

def packPyList : List PyVal → List MPVal
  | [] => []
  | x :: xs => packPy x :: packPyList xs

def packPyDict : List (String × PyVal) → List (MPVal × MPVal)
  | [] => []
  | (k, v) :: kvs => (.mstr k, packPy v) :: packPyDict kvs

end

/-- Lookup in a decoded Python dictionary. -/
def assoc_lookup (kvs : List (String × PyVal)) (k : String) : Option PyVal :=
  (kvs.find? (fun e => e.fst == k)).map (·.snd)

/-- The `_decode_extended` object hook of `kirc/kafka/messages.py`
lines 23-32, applied to every decoded dictionary: a `"__uuid__"` entry
becomes a UUID, a `"__datetime__"` entry a datetime (both raise — `none` —
when the wrapped value is not a string), and a `"__enum__"` entry returns
the wrapped raw value itself (the hook does not rebuild an enum member);
any other dictionary passes through. -/
def decode_extended_hook (kvs : List (String × PyVal)) : Option PyVal :=
  match assoc_lookup kvs "__uuid__" with
  | some (.pstr u) => some (.puuid u)
  | some _ => none
  | none =>
      match assoc_lookup kvs "__datetime__" with
      | some (.pstr d) => some (.pdt d)
      | some _ => none
      | none =>
          match assoc_lookup kvs "__enum__" with
          | some v => some v
          | none => some (.pdict kvs)

mutual

/-- Unpacking by `msgpack.unpackb(data, object_hook=_decode_extended,
raw=False)`: values decode structurally, and every decoded map goes through
the object hook (maps with non-string keys are outside the dictionaries
this program produces and are rejected). -/
def unpackMP : MPVal → Option PyVal
  | .mstr s => some (.pstr s)
  | .mint n => some (.pint n)
  | .mbool b => some (.pbool b)
  | .mnil => some .pnone
  | .mbin bs => some (.pbytes bs)
  | .mlist xs => (unpackMPList xs).map .plist
  | .mmap kvs => (unpackMPDict kvs).bind decode_extended_hook

def unpackMPList : List MPVal → Option (List PyVal)
  | [] => some []
  | x :: xs =>
      (unpackMP x).bind fun v => (unpackMPList xs).map fun vs => v :: vs

def unpackMPDict : List (MPVal × MPVal) → Option (List (String × PyVal))
  | [] => some []
  | (k, v) :: kvs =>
      match k with
      | .mstr ks =>
          (unpackMP v).bind fun pv =>
            (unpackMPDict kvs).map fun rest => (ks, pv) :: rest
      | _ => none

end

mutual

/-- Payload values that survive the codec: everything msgpack-representable
except bare enum members (which come back as their raw value, not an enum)
and dictionaries using one of the three wrapper marker keys (which the
object hook would capture). -/
def roundtrippable : PyVal → Bool
  | .pstr _ => true
  | .pint _ => true
  | .pbool _ => true
  | .pnone => true
  | .pbytes _ => true
  | .puuid _ => true
  | .pdt _ => true
  | .penum _ => false
  | .plist xs => roundtrippableList xs
  | .pdict kvs => roundtrippableDict kvs

def roundtrippableList : List PyVal → Bool
  | [] => true
  | x :: xs => roundtrippable x && roundtrippableList xs

def roundtrippableDict : List (String × PyVal) → Bool
  | [] => true
  | (k, v) :: kvs =>
      !(k == "__uuid__" || k == "__datetime__" || k == "__enum__")
        && roundtrippable v && roundtrippableDict kvs

end

/-- Helper: a marker-free dictionary has no wrapper-key entries. -/
theorem dict_no_marker_lookup : ∀ (kvs : List (String × PyVal)),
    roundtrippableDict kvs = true →
    assoc_lookup kvs "__uuid__" = none
    ∧ assoc_lookup kvs "__datetime__" = none
    ∧ assoc_lookup kvs "__enum__" = none
  | [], _ => ⟨rfl, rfl, rfl⟩
  | (k, v) :: kvs, h => by
      have h' : ((!(k == "__uuid__" || k == "__datetime__" || k == "__enum__")
          && roundtrippable v) && roundtrippableDict kvs) = true := h
      rw [Bool.and_eq_true, Bool.and_eq_true] at h'
      obtain ⟨⟨hnk, _hv⟩, hrest⟩ := h'
      rw [Bool.not_eq_true', Bool.or_eq_false_iff, Bool.or_eq_false_iff]
        at hnk
      obtain ⟨⟨hk1, hk2⟩, hk3⟩ := hnk
      obtain ⟨ih1, ih2, ih3⟩ := dict_no_marker_lookup kvs hrest
      refine ⟨?_, ?_, ?_⟩
      · simpa [assoc_lookup, List.find?_cons, hk1] using ih1
      · simpa [assoc_lookup, List.find?_cons, hk2] using ih2
      · simpa [assoc_lookup, List.find?_cons, hk3] using ih3

/-- Helper: on a marker-free dictionary the object hook is the identity. -/
theorem hook_passthrough (kvs : List (String × PyVal))
    (h : roundtrippableDict kvs = true) :
    decode_extended_hook kvs = some (.pdict kvs) := by
  obtain ⟨h1, h2, h3⟩ := dict_no_marker_lookup kvs h
  rw [decode_extended_hook, h1, h2, h3]

mutual

/-- Helper: unpacking inverts packing on codec-serializable values. -/
theorem unpack_packPy : ∀ (v : PyVal), roundtrippable v = true →
    unpackMP (packPy v) = some v
  | .pstr _, _ => rfl
  | .pint _, _ => rfl
  | .pbool _, _ => rfl
  | .pnone, _ => rfl
  | .pbytes _, _ => rfl
  | .puuid _, _ => rfl
  | .pdt _, _ => rfl
  | .penum _, h => absurd h (by simp [roundtrippable])
  | .plist xs, h => by
      have hx := unpack_packPyList xs h
      simp only [packPy, unpackMP, hx, Option.map_some']
  | .pdict kvs, h => by
      have hx := unpack_packPyDict kvs h
      simp only [packPy, unpackMP, hx, Option.some_bind']
      exact hook_passthrough kvs h

/-- Helper: elementwise inversion for packed lists. -/
theorem unpack_packPyList : ∀ (xs : List PyVal),
    roundtrippableList xs = true →
    unpackMPList (packPyList xs) = some xs
  | [], _ => rfl
  | x :: xs, h => by
      have h' : (roundtrippable x && roundtrippableList xs) = true := h
      rw [Bool.and_eq_true] at h'
      simp only [packPyList, unpackMPList, unpack_packPy x h'.1,
        unpack_packPyList xs h'.2, Option.some_bind', Option.map_some']

/-- Helper: entrywise inversion for packed dictionaries. -/
theorem unpack_packPyDict : ∀ (kvs : List (String × PyVal)),
    roundtrippableDict kvs = true →
    unpackMPDict (packPyDict kvs) = some kvs
  | [], _ => rfl
  | (k, v) :: kvs, h => by
      have h' : ((!(k == "__uuid__" || k == "__datetime__" || k == "__enum__")
          && roundtrippable v) && roundtrippableDict kvs) = true := h
      rw [Bool.and_eq_true, Bool.and_eq_true] at h'
      simp only [packPyDict, unpackMPDict, unpack_packPy v h'.1.2,
        unpack_packPyDict kvs h'.2, Option.some_bind', Option.map_some']

end

/-- Helper: each enumeration member's value coerces back to the member. -/
theorem ofString?_value (t : MessageType) :
    MessageType.ofString? t.value = some t := by
  cases t <;> rfl

/-- Dictionary `self.model_dump(mode="python")` produces for a `Message`:
fields in declaration order, with the id as a UUID object, the type as the
`(str, Enum)` member, the timestamp as a datetime object and the payload
dictionary as-is. -/
def Message.model_dump (m : Message) : PyVal :=
  .pdict [("id", .puuid m.id), ("type", .penum m.type.value),
          ("sender", .pstr m.sender),
          ("recipient", (m.recipient.map PyVal.pstr).getD .pnone),
          ("timestamp", .pdt m.timestamp),
          ("payload", .pdict m.payload)]

/-- Message.to_bytes of `kirc/kafka/messages.py` lines 63-66:
`msgpack.packb(self.model_dump(mode="python"), default=_encode_extended,
strict_types=False)`; the resulting bytes are modelled by the msgpack value
tree they encode. -/
def Message.to_bytes (m : Message) : MPVal :=
  packPy m.model_dump

/-- Pydantic `Message.model_validate` on a decoded Python value, as
`from_bytes` invokes it.  Every field of a dumped message is present, so
the generated defaults never fire on this path; a UUID field accepts a UUID
object or its string, a datetime field a datetime object or its isoformat
string, and the `type` string is coerced through the enumeration. -/
def Message.model_validate (v : PyVal) : Option Message :=
  match v with
  | .pdict kvs =>
      let id? := match assoc_lookup kvs "id" with
        | some (.puuid u) => some u
        | some (.pstr u) => some u
        | _ => none
      let type? := match assoc_lookup kvs "type" with
        | some (.pstr s) => MessageType.ofString? s
        | some (.penum s) => MessageType.ofString? s
        | _ => none
      let sender? := match assoc_lookup kvs "sender" with
        | some (.pstr s) => some s
        | _ => none
      let recipient? : Option (Option String) :=
        match assoc_lookup kvs "recipient" with
        | some (.pstr s) => some (some s)
        | some .pnone => some none
        | _ => none
      let timestamp? := match assoc_lookup kvs "timestamp" with
        | some (.pdt d) => some d
        | some (.pstr d) => some d
        | _ => none
      let payload? : Option (List (String × PyVal)) :=
        match assoc_lookup kvs "payload" with
        | some (.pdict kvs2) => some kvs2
        | _ => none
      match id?, type?, sender?, recipient?, timestamp?, payload? with
      | some i, some t, some snd, some r, some ts, some p =>
          some { id := i, type := t, sender := snd, recipient := r,
                 timestamp := ts, payload := p }
      | _, _, _, _, _, _ => none
  | _ => none

/-- Message.from_bytes of `kirc/kafka/messages.py` lines 68-72:
`msgpack.unpackb(data, object_hook=_decode_extended, raw=False)` followed
by `cls.model_validate(unpacked)`. -/
def Message.from_bytes (b : MPVal) : Option Message :=
  (unpackMP b).bind Message.model_validate

/-! ## Claim C9 -/

/-- C9, counterexample: the claim states the encoding tags UUIDs, datetimes
AND enumeration values with wrapper markers.  Because `MessageType` is a
`str` subclass and `to_bytes` packs with `strict_types=False`, the `type`
field is packed natively as the bare string — no `__enum__` wrapper map
appears anywhere in the encoding of a message — while UUIDs and datetimes
do receive their wrapper maps. -/
theorem c9_enum_wrapper_counterexample :
    packPy (.penum "ping") = .mstr "ping"
    ∧ (packPy (.penum "ping")).is_map = false
    ∧ (packPy (.puuid "u-0")).is_map = true
    ∧ (packPy (.pdt "t-0")).is_map = true
    ∧ Message.to_bytes ⟨"u-0", .ping, "alice", none, "t-0", []⟩
      = .mmap [(.mstr "id", .mmap [(.mstr "__uuid__", .mstr "u-0")]),
               (.mstr "type", .mstr "ping"),
               (.mstr "sender", .mstr "alice"),
               (.mstr "recipient", .mnil),
               (.mstr "timestamp",
                 .mmap [(.mstr "__datetime__", .mstr "t-0")]),
               (.mstr "payload", .mmap [])] :=
  ⟨rfl, rfl, rfl, rfl, rfl⟩

/-- Helper: the object hook turns a decoded UUID wrapper map back into the
UUID it tags. -/
theorem hook_uuid (u : String) :
    decode_extended_hook [("__uuid__", .pstr u)] = some (.puuid u) := rfl

/-- Helper: the object hook turns a decoded datetime wrapper map back into
the datetime it tags. -/
theorem hook_dt (d : String) :
    decode_extended_hook [("__datetime__", .pstr d)] = some (.pdt d) := rfl

/-- Helper: the object hook passes the decoded top-level field dictionary
of a message through unchanged — none of its six literal keys is a wrapper
marker. -/
theorem hook_fields_passthrough (i ty snd rec ts : PyVal)
    (pay : List (String × PyVal)) :
    decode_extended_hook
      [("id", i), ("type", ty), ("sender", snd), ("recipient", rec),
       ("timestamp", ts), ("payload", .pdict pay)]
      = some (.pdict
        [("id", i), ("type", ty), ("sender", snd), ("recipient", rec),
         ("timestamp", ts), ("payload", .pdict pay)]) := rfl

set_option maxHeartbeats 4000000 in
/-- C9, amended: for every `Message` whose payload is serializable by the
binary codec (msgpack-representable values, no bare enum members, no
wrapper-marker keys), `Message.from_bytes (m.to_bytes) = m`: the id comes
back as the same UUID and the timestamp as the same datetime instant via
their wrapper markers, and the `type` field keeps its enumeration value —
not via an `__enum__` wrapper (the str-subclass enum is packed as its bare
string value) but through pydantic's enum coercion on validation. -/
theorem c9_roundtrip (m : Message) (h : roundtrippableDict m.payload = true) :
    Message.from_bytes (Message.to_bytes m) = some m := by
  obtain ⟨mid, mtype, msender, mrecipient, mts, mpayload⟩ := m
  have hpay : unpackMPDict (packPyDict mpayload) = some mpayload :=
    unpack_packPyDict _ h
  have hph : decode_extended_hook mpayload = some (.pdict mpayload) :=
    hook_passthrough _ h
  cases mrecipient <;> cases mtype <;>
    simp [Message.from_bytes, Message.to_bytes, Message.model_dump,
      packPy, packPyDict, unpackMP, unpackMPDict, hpay, hph,
      hook_fields_passthrough, hook_uuid, hook_dt, assoc_lookup,
      Message.model_validate,
      MessageType.ofString?, MessageType.members, MessageType.value,
      List.find?]

/-- Witness for C9 (amended): a concrete chat message with a two-entry
payload round-trips exactly. -/
theorem c9_roundtrip_witness :
    roundtrippableDict [("content", PyVal.pstr "hi"), ("n", PyVal.pint 3)]
      = true
    ∧ Message.from_bytes (Message.to_bytes
        ⟨"u-1", .chat, "alice", some "bob", "t-1",
          [("content", .pstr "hi"), ("n", .pint 3)]⟩)
      = some ⟨"u-1", .chat, "alice", some "bob", "t-1",
          [("content", .pstr "hi"), ("n", .pint 3)]⟩ :=
  ⟨rfl, c9_roundtrip
    ⟨"u-1", .chat, "alice", some "bob", "t-1",
      [("content", .pstr "hi"), ("n", .pint 3)]⟩ rfl⟩
